import Mathlib

/-!
Verification development for the TextbookTracker repository
(`progress_tracker.py`, the multi-textbook base variant, and
`progress_tracker_QFT.py`, the single-textbook QFT variant).

The Python sources are shallowly embedded: pure functions become Lean
functions, the JSON persistence layer is modelled by an explicit `Json`
value (with `Option` marking a missing file and a failed `json.load`),
dictionaries become insertion-ordered association lists with the usual
Python update/delete semantics, and calendar dates are modelled after
CPython's `datetime.date` (proleptic Gregorian calendar, `toordinal`
day numbering).
-/

namespace TextbookTracker

/-! ### Calendar dates, modelling Python's `datetime.date` -/

/-- A calendar date, as Python's `datetime.date(year, month, day)`. -/
structure Date where
  y : Nat
  m : Nat
  d : Nat
deriving DecidableEq, Repr

/-- Gregorian leap-year test, as CPython `datetime._is_leap`. -/
def isLeap (y : Nat) : Bool :=
  y % 4 == 0 && (y % 100 != 0 || y % 400 == 0)

/-- One when the year is leap, zero otherwise. -/
def leapBit (y : Nat) : Nat := if isLeap y then 1 else 0

/-- Days in a month, as CPython `datetime._days_in_month`. -/
def daysInMonth (y m : Nat) : Nat :=
  if m = 2 then (if isLeap y then 29 else 28)
  else if m = 4 ∨ m = 6 ∨ m = 9 ∨ m = 11 then 30
  else 31

/-- CPython's `_DAYS_BEFORE_MONTH` table (non-leap years); the value for
any argument above 12 is the sentinel 365 (= days before a 13th month),
used only in proofs. -/
def monthTable (m : Nat) : Nat :=
  match m with
  | 0 => 0
  | 1 => 0
  | 2 => 31
  | 3 => 59
  | 4 => 90
  | 5 => 120
  | 6 => 151
  | 7 => 181
  | 8 => 212
  | 9 => 243
  | 10 => 273
  | 11 => 304
  | 12 => 334
  | _ => 365

/-- Days in the year strictly before month `m`, as CPython
`datetime._days_before_month`. -/
def daysBeforeMonth (y m : Nat) : Nat :=
  monthTable m + (if 2 < m && isLeap y then 1 else 0)

/-- Days strictly before January 1st of year `y`, as CPython
`datetime._days_before_year`. -/
def daysBeforeYear (y : Nat) : Nat :=
  (y - 1) * 365 + (y - 1) / 4 - (y - 1) / 100 + (y - 1) / 400

/-- Proleptic Gregorian ordinal of a date, as Python
`datetime.date.toordinal` (January 1 of year 1 has ordinal 1). -/
def toOrdinal (dt : Date) : Nat :=
  daysBeforeYear dt.y + daysBeforeMonth dt.y dt.m + dt.d

/-- `(a - b).days` for Python dates: difference of their ordinals. -/
def dateSub (a b : Date) : Int :=
  (toOrdinal a : Int) - (toOrdinal b : Int)

/-- Python's `date.__lt__`: lexicographic comparison of (y, m, d). -/
def dlt (a b : Date) : Bool :=
  decide (a.y < b.y) ||
    (decide (a.y = b.y) &&
      (decide (a.m < b.m) || (decide (a.m = b.m) && decide (a.d < b.d))))

/-- Python's `date.__le__`: lexicographic comparison of (y, m, d). -/
def dle (a b : Date) : Bool := dlt a b || decide (a = b)

/-- The constraints `datetime.date` enforces at construction:
`MINYEAR ≤ y ≤ MAXYEAR`, a real month, and a day within the month. -/
def validB (dt : Date) : Bool :=
  decide (1 ≤ dt.y) && decide (dt.y ≤ 9999) &&
  decide (1 ≤ dt.m) && decide (dt.m ≤ 12) &&
  decide (1 ≤ dt.d) && decide (dt.d ≤ daysInMonth dt.y dt.m)

/-! ### Python string helpers -/

/-- The whitespace characters Python's `str.strip` / `int()` remove
(ASCII range, by code point: space, tab, newline, carriage return,
vertical tab, form feed; the model does not cover non-ASCII
whitespace). -/
def pyIsSpace (c : Char) : Bool :=
  c.toNat = 32 || c.toNat = 9 || c.toNat = 10 || c.toNat = 13 ||
    c.toNat = 11 || c.toNat = 12

/-- ASCII decimal digit test, by code point. -/
def pyIsDigit (c : Char) : Bool := 48 ≤ c.toNat && c.toNat ≤ 57

/-- Strip leading and trailing whitespace from a character list. -/
def stripWs (l : List Char) : List Char :=
  ((l.dropWhile pyIsSpace).reverse.dropWhile pyIsSpace).reverse

/-- Python's `str.strip()` with no argument. -/
def pyStrip (s : String) : String := String.mk (stripWs s.data)

/-- Lowercase one ASCII letter (Python `str.lower`, ASCII range). -/
def lowerChar (c : Char) : Char :=
  if 65 ≤ c.toNat ∧ c.toNat ≤ 90 then Char.ofNat (c.toNat + 32) else c

/-- Python's `str.lower()` (ASCII range). -/
def pyLower (s : String) : String := String.mk (s.data.map lowerChar)

/-- Whether `pre` is a prefix of `cs` (character lists). -/
def isPrefixList : List Char → List Char → Bool
  | [], _ => true
  | _ :: _, [] => false
  | p :: ps, c :: cs => p = c && isPrefixList ps cs

/-- Python's `str.startswith(pre)`. -/
def pyStartsWith (s pre : String) : Bool := isPrefixList pre.data s.data

/-- Split a character list on a separator character, Python
`str.split(sep)` style: `""` gives `[""]`, separators at the ends give
empty pieces. -/
def splitOnCharAux (sep : Char) : List Char → List Char → List (List Char)
  | [], acc => [acc.reverse]
  | c :: rest, acc =>
    if c = sep then acc.reverse :: splitOnCharAux sep rest []
    else splitOnCharAux sep rest (c :: acc)

/-- Python's `str.split(sep)` for a one-character separator. -/
def pySplitOn (s : String) (sep : Char) : List String :=
  (splitOnCharAux sep s.data []).map String.mk

/-- Decimal value of a digit list; `none` unless nonempty and all ASCII
digits. -/
def parseDigits (cs : List Char) : Option Nat :=
  if cs ≠ [] ∧ cs.all pyIsDigit then
    some (cs.foldl (fun n c => n * 10 + (c.toNat - 48)) 0)
  else none

/-- Sign handling of Python's `int(s)` after whitespace stripping. -/
def pyIntCore (c : Char) (rest : List Char) : Option Int :=
  if c = '+' then (parseDigits rest).map Int.ofNat
  else if c = '-' then (parseDigits rest).map (fun n => -(n : Int))
  else (parseDigits (c :: rest)).map Int.ofNat

/-- Python's `int(s)` on a string: optional surrounding whitespace, an
optional sign, then decimal digits; raises `ValueError` (here `none`)
otherwise. (Digit-group underscores are not modelled.) -/
def pyInt (s : String) : Option Int :=
  match stripWs s.data with
  | [] => none
  | c :: rest => pyIntCore c rest

/-- Python's `str.isdigit` restricted to ASCII: nonempty and all decimal
digits. -/
def isdigit (s : String) : Bool :=
  !s.data.isEmpty && s.data.all pyIsDigit

/-- Worker for Python's `str.split()` with no argument: split on runs
of whitespace, discarding empty pieces (`acc` holds the current word,
reversed). -/
def splitWsAux : List Char → List Char → List (List Char)
  | [], acc => if acc.isEmpty then [] else [acc.reverse]
  | c :: rest, acc =>
    if pyIsSpace c then
      if acc.isEmpty then splitWsAux rest []
      else acc.reverse :: splitWsAux rest []
    else splitWsAux rest (c :: acc)

/-- Python's `str.split()` with no argument. -/
def pySplitWs (s : String) : List String :=
  (splitWsAux s.data []).map String.mk

/-! ### Python dictionaries as insertion-ordered association lists

Python 3.7+ dictionaries preserve insertion order; assigning to an
existing key keeps its position.  Keys of a real `dict` are unique, so
on every state the program can build, first-match lookup agrees with
Python lookup.  `ppop` (del / `.pop(k, None)`) removes every binding of
the key, which coincides with Python deletion on duplicate-free maps. -/

def pget {α : Type} : List (String × α) → String → Option α
  | [], _ => none
  | (k, v) :: rest, key => if k = key then some v else pget rest key

def pset {α : Type} : List (String × α) → String → α → List (String × α)
  | [], key, v => [(key, v)]
  | (k, w) :: rest, key, v =>
    if k = key then (k, v) :: rest else (k, w) :: pset rest key v

def ppop {α : Type} (l : List (String × α)) (key : String) :
    List (String × α) :=
  l.filter (fun kv => kv.1 ≠ key)

/-! ### Completion entries and the completed-problems map

A completion entry is the per-problem dictionary
`{"complete": bool, "document": path-or-None}`; values occurring in
entries are booleans, strings, or `None`. -/

inductive Val where
  | bool (b : Bool)
  | str (s : String)
  | null
deriving DecidableEq, Repr

/-- A completion entry: one problem's attribute dictionary. -/
abbrev Entry := List (String × Val)

/-- The `completed_problems` dictionary: problem id to entry. -/
abbrev CompletedMap := List (String × Entry)

/-- Python truthiness of a `dict.get` result: `None`/absent and the
empty string are falsy. -/
def truthy : Option Val → Bool
  | some (.bool b) => b
  | some (.str s) => s ≠ ""
  | some .null => false
  | none => false

/-- The `document` pointer an entry carries, as read by the Python code
via `.get("document")` truthiness: only a nonempty string path counts. -/
def entryDoc (e : Entry) : Option String :=
  match pget e "document" with
  | some (.str s) => if s = "" then none else some s
  | _ => none

/-! ### JSON values and ISO date strings -/

/-- JSON values as `json.load` produces them (numbers restricted to
integers, which is all this program ever stores). -/
inductive Json where
  | null
  | bool (b : Bool)
  | int (n : Int)
  | str (s : String)
  | arr (elts : List Json)
  | obj (fields : List (String × Json))

/-- Zero-padded decimal numeral of width `w`. -/
def natPad (n w : Nat) : String :=
  let s := toString n
  String.mk (List.replicate (w - s.length) '0') ++ s

/-- Python's `date.isoformat()`: the string `YYYY-MM-DD`. -/
def toIso (dt : Date) : String :=
  natPad dt.y 4 ++ "-" ++ natPad dt.m 2 ++ "-" ++ natPad dt.d 2

/-- Python's `date.fromisoformat` (strict `YYYY-MM-DD` form, as in
CPython 3.10 and earlier): parses the three zero-padded components and
checks they form a constructible date; `none` models the raised
`ValueError`. -/
def fromIso (s : String) : Option Date :=
  match pySplitOn s '-' with
  | [ys, ms, ds] =>
    if ys.length = 4 ∧ ms.length = 2 ∧ ds.length = 2 then
      match parseDigits ys.data, parseDigits ms.data, parseDigits ds.data with
      | some y, some m, some d =>
        if validB ⟨y, m, d⟩ then some ⟨y, m, d⟩ else none
      | _, _, _ => none
    else none
  | _ => none

/-! ### The Textbook record (`progress_tracker.py`, class `Textbook`) -/

/-- The `Textbook` class of `progress_tracker.py`.  `__init__` always
sets `completed_problems = {}`; `to_dict`/`from_dict` below serialize
and deserialize it. -/
structure Textbook where
  name : String
  author : String
  total_pages : Int
  current_page : Int
  problems_dict : List (String × List String)
  start_date : Date
  end_date : Date
  completed_problems : CompletedMap
deriving DecidableEq, Repr

/-- Encode an entry value for JSON storage. -/
def Val.toJson : Val → Json
  | .bool b => .bool b
  | .str s => .str s
  | .null => .null

/-- Encode a completion entry (a per-problem attribute dict). -/
def encodeEntry (e : Entry) : Json :=
  .obj (e.map fun kv => (kv.1, kv.2.toJson))

/-- Encode the completed-problems dict. -/
def encodeCompleted (cp : CompletedMap) : Json :=
  .obj (cp.map fun kv => (kv.1, encodeEntry kv.2))

/-- Encode the chapter-to-problems dict. -/
def encodeProblems (pd : List (String × List String)) : Json :=
  .obj (pd.map fun kv => (kv.1, .arr (kv.2.map .str)))

/-- `Textbook.to_dict`: the dictionary written to `textbooks.json`. -/
def Textbook.to_dict (t : Textbook) : Json :=
  .obj [("name", .str t.name),
        ("author", .str t.author),
        ("total_pages", .int t.total_pages),
        ("current_page", .int t.current_page),
        ("problems_dict", encodeProblems t.problems_dict),
        ("start_date", .str (toIso t.start_date)),
        ("end_date", .str (toIso t.end_date)),
        ("completed_problems", encodeCompleted t.completed_problems)]

/-- `data[key]` on a decoded JSON object: `KeyError` when absent. -/
def jget (kvs : List (String × Json)) (k : String) : Except String Json :=
  match pget kvs k with
  | some v => .ok v
  | none => .error ("KeyError: " ++ k)

/-- Expect a JSON string (the model's stand-in for Python's dynamic
typing at the places a string is consumed, e.g. `date.fromisoformat`
raises `TypeError` on a non-string argument). -/
def asStr : Json → Except String String
  | .str s => .ok s
  | _ => .error "TypeError"

/-- Expect a JSON integer. -/
def asInt : Json → Except String Int
  | .int n => .ok n
  | _ => .error "TypeError"

/-- Decode a stored problem list (an array of strings). -/
def decodeProblemList : List Json → Except String (List String)
  | [] => .ok []
  | .str s :: rest => do
    let tail ← decodeProblemList rest
    .ok (s :: tail)
  | _ :: _ => .error "TypeError"

/-- Decode the stored chapter-to-problems dict. -/
def decodeProblems : Json → Except String (List (String × List String))
  | .obj kvs =>
    kvs.mapM fun kv => do
      let l ←
        match kv.2 with
        | .arr es => decodeProblemList es
        | _ => .error "TypeError"
      .ok (kv.1, l)
  | _ => .error "TypeError"

/-- `Textbook.from_dict`: rebuilds a `Textbook` from a stored
dictionary.  Faithful to the source, it reads `name`, `author`,
`total_pages`, `problems_dict`, `start_date`, `end_date` and
`current_page` — and never reads `completed_problems`, so the rebuilt
record always carries an empty completion map (`__init__`'s default).
Any raised `KeyError` / `ValueError` / `TypeError` is an `.error`
(Python performs no schema check; the model's type expectations stand
in for where the untyped code would raise downstream). -/
def Textbook.from_dict (j : Json) : Except String Textbook :=
  match j with
  | .obj kvs => do
    let name ← jget kvs "name" >>= asStr
    let author ← jget kvs "author" >>= asStr
    let tp ← jget kvs "total_pages" >>= asInt
    let pd ← jget kvs "problems_dict" >>= decodeProblems
    let sdS ← jget kvs "start_date" >>= asStr
    let sd ←
      match fromIso sdS with
      | some dte => Except.ok dte
      | none => Except.error "ValueError: invalid isoformat string"
    let edS ← jget kvs "end_date" >>= asStr
    let ed ←
      match fromIso edS with
      | some dte => Except.ok dte
      | none => Except.error "ValueError: invalid isoformat string"
    let cpg ← jget kvs "current_page" >>= asInt
    .ok { name := name, author := author, total_pages := tp,
          current_page := cpg, problems_dict := pd, start_date := sd,
          end_date := ed, completed_problems := [] }
  | _ => .error "TypeError"

/-- `save_textbooks`: the JSON document written to `textbooks.json`. -/
def save_textbooks (textbooks : List Textbook) : Json :=
  .arr (textbooks.map Textbook.to_dict)

/-- `load_textbooks` of `progress_tracker.py`.  The persisted file is
modelled as `Option (Option Json)`: `none` when `textbooks.json` does
not exist, `some none` when the file exists but `json.load` fails
(invalid JSON), `some (some j)` when it parses to `j`.  The function
has NO exception handler: a parse failure or a wrongly-shaped document
propagates (and, called at module top level, aborts startup). -/
def load_textbooks (file : Option (Option Json)) :
    Except String (List Textbook) :=
  match file with
  | none => .ok []
  | some none => .error "json.decoder.JSONDecodeError"
  | some (some (Json.arr items)) => items.mapM Textbook.from_dict
  | some (some _) => .error "TypeError"

/-- Whether a JSON value is a string (dict-key shape for the legacy
completed-problems list). -/
def isJStr : Json → Bool
  | .str _ => true
  | _ => false

/-- `load_completed_problems` of `progress_tracker_QFT.py`.  Every
failure path is caught inside the function, so it is total:
missing file, `json.JSONDecodeError`, and data that is neither a list
nor a dict all yield `{}`.  A legacy list of problem-id strings is
converted to a dict of default completion entries (built left to right,
as the dict comprehension does; a list whose elements are not strings
falls into the catch-all `except Exception` branch of the source and is
modelled as `{}`). -/
def load_completed_problems (file : Option (Option Json)) : Json :=
  match file with
  | none => .obj []
  | some none => .obj []
  | some (some (Json.arr probs)) =>
    if probs.all isJStr then
      .obj (probs.foldl
        (fun acc p =>
          match p with
          | .str s =>
            pset acc s (Json.obj [("complete", .bool true), ("document", .null)])
          | _ => acc)
        [])
    else .obj []
  | some (some (Json.obj kvs)) => .obj kvs
  | some (some _) => .obj []

/-! ### The chapter/problem text parser (`parse_problems`) -/

/-- One iteration of `parse_problems`' loop over the lines of the
input.  State: the problems dict built so far and `current_chapter`
(`none` = Python `None`).  A line whose lowercased, stripped form
starts with the eight characters `"chapter "` opens a new chapter keyed
by the line's second whitespace-separated token and resets that key's
problem list to `[]`; otherwise a nonempty line (when a chapter is
open) appends its comma-separated, stripped pieces to the current
chapter.  The unreachable fallback of the chapter branch corresponds to
the `IndexError` Python would raise on `line.split()[1]`; it cannot
fire because the stripped line starts with `"chapter "` and therefore
has a second token. -/
def parseStep (st : List (String × List String) × Option String)
    (rawLine : String) : List (String × List String) × Option String :=
  let line := pyStrip rawLine
  if pyStartsWith (pyLower line) "chapter " then
    match pySplitWs line with
    | _ :: key :: _ => (pset st.1 key [], some key)
    | _ => st
  else
    match st.2 with
    | some c =>
      if c ≠ "" ∧ line ≠ "" then
        (pset st.1 c
          ((pget st.1 c).getD [] ++ (pySplitOn line ',').map pyStrip),
          st.2)
      else st
    | none => st

/-- `parse_problems` of `progress_tracker.py`: strip the text, split it
into lines, and fold `parseStep` over them starting from an empty dict
and no current chapter. -/
def parse_problems (text : String) : List (String × List String) :=
  ((pySplitOn (pyStrip text) '\n').foldl parseStep ([], none)).1

/-! ### Adding a textbook (`parse_and_add` inside `add_textbook_dialog`) -/

/-- `parse_and_add` of `progress_tracker.py`, with the dialog's entry
widgets replaced by their string contents and the surrounding
`try/except` made explicit: the result is the textbook list after the
call together with `none` on success or the caught exception's message.
Mirroring the source's order of effects: parse the start date, parse
the end date, compare them, parse the chapter text (total, never
raises), convert the pages text with `int()`, then append the new
record (with `current_page = 0` and an empty completion map) to the
list.  On any raised error the list is returned unchanged — the append
is unreachable past a raise. -/
def parse_and_add (nameS authorS startS endS pagesS probText : String)
    (textbooks : List Textbook) : List Textbook × Option String :=
  match fromIso startS with
  | none => (textbooks, some "ValueError: invalid isoformat string")
  | some sd =>
    match fromIso endS with
    | none => (textbooks, some "ValueError: invalid isoformat string")
    | some ed =>
      if dlt ed sd then
        (textbooks, some "End date must be after start date")
      else
        let problems := parse_problems probText
        match pyInt pagesS with
        | none => (textbooks, some "ValueError: invalid literal for int")
        | some tp =>
          (textbooks ++
            [{ name := nameS, author := authorS, total_pages := tp,
               current_page := 0, problems_dict := problems,
               start_date := sd, end_date := ed,
               completed_problems := [] }],
            none)

/-! ### Derived day counts and percentages -/

/-- `update_display` of `progress_tracker.py`, date part:
`total_days = (end - start).days`. -/
def totalDaysBase (start e : Date) : Int := dateSub e start

/-- `update_display`:
`days_elapsed = max(0, (today - start).days) if start <= today else 0`. -/
def daysElapsedBase (start today : Date) : Int :=
  if dle start today then max 0 (dateSub today start) else 0

/-- `update_display`:
`days_left = max(0, (end - today).days) if today <= end else 0`. -/
def daysLeftBase (e today : Date) : Int :=
  if dle today e then max 0 (dateSub e today) else 0

/-- Python float division, with `none` modelling `ZeroDivisionError`;
exact rationals stand in for floats (every quantity the claims mention
is produced by a single division, where the two agree on
zero-divisor behaviour and on equality with 0). -/
def pyDiv (a b : Rat) : Option Rat := if b = 0 then none else some (a / b)

/-- `update_display`:
`semester_progress['value'] = (days_elapsed / total_days * 100) if total_days else 0`. -/
def semester_progress_value (days_elapsed total_days : Int) : Option Rat :=
  if total_days ≠ 0 then
    (pyDiv (days_elapsed : Rat) (total_days : Rat)).map (· * 100)
  else some 0

/-- `update_display`:
`textbook_progress['value'] = (current_page / total_pages * 100) if total_pages else 0`. -/
def textbook_progress_value (current_page total_pages : Int) : Option Rat :=
  if total_pages ≠ 0 then
    (pyDiv (current_page : Rat) (total_pages : Rat)).map (· * 100)
  else some 0

/-! ### The QFT variant's hard-coded configuration and metrics -/

/-- `SEMESTER_START = date(2025, 1, 13)`. -/
def SEMESTER_START : Date := ⟨2025, 1, 13⟩

/-- `SEMESTER_END = date(2025, 5, 9)`. -/
def SEMESTER_END : Date := ⟨2025, 5, 9⟩

/-- `TOTAL_PAGES = 258`. -/
def TOTAL_PAGES : Int := 258

/-- `TOTAL_SEMESTER_DAYS = (SEMESTER_END - SEMESTER_START).days`. -/
def TOTAL_SEMESTER_DAYS : Int := dateSub SEMESTER_END SEMESTER_START

/-- The day-count branch of `update_widget` in
`progress_tracker_QFT.py`: returns `(days_elapsed, days_left)`. -/
def qft_days (today : Date) : Int × Int :=
  if dlt today SEMESTER_START then (0, TOTAL_SEMESTER_DAYS)
  else if dlt SEMESTER_END today then (TOTAL_SEMESTER_DAYS, 0)
  else (dateSub today SEMESTER_START, dateSub SEMESTER_END today)

/-- `update_widget`:
`semester_percentage = (days_elapsed / TOTAL_SEMESTER_DAYS) * 100`
(no guard — safe only because the divisor is a fixed constant). -/
def semester_percentage_qft (days_elapsed : Int) : Option Rat :=
  (pyDiv (days_elapsed : Rat) (TOTAL_SEMESTER_DAYS : Rat)).map (· * 100)

/-- `update_widget`:
`textbook_percentage = (current_page / TOTAL_PAGES) * 100`. -/
def textbook_percentage_qft (current_page : Int) : Option Rat :=
  (pyDiv (current_page : Rat) (TOTAL_PAGES : Rat)).map (· * 100)

/-! ### Problem completion and page updates -/

/-- `mark_problem` of `progress_tracker_QFT.py`, for one selected
problem row (the GUI loop over the tree selection is external to the
store).  Marking complete takes the existing entry (or `{}`), sets
`"complete": True`, adds `"document": None` only when the `"document"`
key is absent, and stores the entry back; marking incomplete deletes
the entry when present. -/
def mark_problem_qft (cp : CompletedMap) (prob : String)
    (mark_complete : Bool) : CompletedMap :=
  if mark_complete then
    let current_data := (pget cp prob).getD []
    let current_data := pset current_data "complete" (Val.bool true)
    let current_data :=
      if (pget current_data "document").isSome then current_data
      else pset current_data "document" Val.null
    pset cp prob current_data
  else ppop cp prob

/-- `mark_problem` of `progress_tracker.py`, for one selected problem
row: marking complete stores the fresh entry `{"complete": True}`
(no `"document"` key — this variant has no document feature); marking
incomplete is `completed_problems.pop(prob, None)`. -/
def mark_problem_base (cp : CompletedMap) (prob : String)
    (complete : Bool) : CompletedMap :=
  if complete then pset cp prob [("complete", Val.bool true)]
  else ppop cp prob

/-- `update_page` of `progress_tracker.py`: the new page is accepted
only when the entry text passes `str.isdigit` and its integer value
lies in `[0, total_pages]`; otherwise `current_page` is left unchanged
(the `except ValueError: pass` branch is unreachable once `isdigit`
holds, in the model's ASCII reading of `isdigit`). -/
def update_page (entry : String) (current_page total_pages : Int) : Int :=
  if isdigit entry then
    match pyInt entry with
    | some n => if 0 ≤ n ∧ n ≤ total_pages then n else current_page
    | none => current_page
  else current_page

/-- `update_page` of `progress_tracker_QFT.py`: `int()` the entry text
(`ValueError` is caught and leaves the page unchanged); accept only
values in `[0, TOTAL_PAGES]`, otherwise warn and leave the page
unchanged. -/
def update_page_qft (entry : String) (current_page : Int) : Int :=
  match pyInt entry with
  | some n => if 0 ≤ n ∧ n ≤ TOTAL_PAGES then n else current_page
  | none => current_page

/-! ### Document upload (`upload_document`, QFT variant) -/

/-- `UPLOAD_DIR = "uploaded_documents"`. -/
def UPLOAD_DIR : String := "uploaded_documents"

/-- Index of the last occurrence of `c` in `cs`, if any. -/
def lastIdx (cs : List Char) (c : Char) : Option Nat :=
  (cs.reverse.findIdx? (· = c)).map (fun i => cs.length - 1 - i)

/-- The extension part of `os.path.splitext` (POSIX separator):
everything from the last dot of the final path component, unless that
component's leading characters up to the dot are all dots. -/
def splitextExt (p : String) : String :=
  let cs := p.data
  match lastIdx cs '.' with
  | none => ""
  | some di =>
    let si : Nat :=
      match lastIdx cs '/' with
      | none => 0
      | some s => s + 1
    if si ≤ di then
      if ((cs.drop si).take (di - si)).any (· ≠ '.') then
        String.mk (cs.drop di)
      else ""
    else ""

/-- `upload_document` of `progress_tracker_QFT.py`, for one selected
problem row.  `file_path` is the user's file-picker choice (`none` =
canceled) and `copy_ok` tells whether `shutil.copy` succeeds (its
failure is caught, reported, and leaves the map unchanged).  Returns
the completed-problems map after the call and whether a document was
attached.  The precondition check mirrors
`if prob not in completed_problems or not completed_problems[prob].get("complete")`. -/
def upload_document (cp : CompletedMap) (prob : String)
    (file_path : Option String) (copy_ok : Bool) : CompletedMap × Bool :=
  match pget cp prob with
  | none => (cp, false)
  | some entry =>
    if truthy (pget entry "complete") = false then (cp, false)
    else
      match file_path with
      | none => (cp, false)
      | some fp =>
        if copy_ok then
          (pset cp prob
            (pset entry "document"
              (Val.str (UPLOAD_DIR ++ "/" ++ prob ++ splitextExt fp))),
            true)
        else (cp, false)

/-- Whether a JSON value is a list or a dict (the shapes
`load_completed_problems` accepts). -/
def isArrOrObj : Json → Bool
  | .arr _ => true
  | .obj _ => true
  | _ => false

/-- A concrete textbook record with a nonempty completion map, used to
exhibit the save/load round-trip behaviour. -/
def exC1Book : Textbook :=
  { name := "Quantum Field Theory", author := "Peskin and Schroeder",
    total_pages := 258, current_page := 80,
    problems_dict := [("3", ["3.1a", "3.2"])],
    start_date := ⟨2025, 1, 13⟩, end_date := ⟨2025, 5, 9⟩,
    completed_problems :=
      [("3.2", [("complete", Val.bool true), ("document", Val.null)])] }

/-! ### Ordinal arithmetic lemmas (monotonicity of `toOrdinal`) -/

lemma dbm_step (y m : Nat) (h1 : 1 ≤ m) (h2 : m ≤ 12) :
    daysBeforeMonth y m + daysInMonth y m = daysBeforeMonth y (m + 1) := by
  interval_cases m <;> by_cases hL : isLeap y <;>
    simp [daysBeforeMonth, daysInMonth, monthTable, hL]

lemma dbm_le_succ (y m : Nat) (h1 : 1 ≤ m) (h2 : m ≤ 12) :
    daysBeforeMonth y m ≤ daysBeforeMonth y (m + 1) := by
  have h := dbm_step y m h1 h2
  omega

lemma dbm_mono (y : Nat) {m1 m2 : Nat} (hm1 : 1 ≤ m1) (h : m1 ≤ m2)
    (h13 : m2 ≤ 13) : daysBeforeMonth y m1 ≤ daysBeforeMonth y m2 := by
  induction m2 with
  | zero => omega
  | succ n ih =>
    rcases Nat.lt_or_ge m1 (n + 1) with hlt | hge
    · have hn : m1 ≤ n := by omega
      have h1n : 1 ≤ n := by omega
      have hstep := dbm_le_succ y n h1n (by omega)
      have := ih hn (by omega)
      omega
    · have : m1 = n + 1 := by omega
      subst this
      exact Nat.le_refl _

lemma d_le_bound (y m d : Nat) (h1 : 1 ≤ m) (h2 : m ≤ 12)
    (hd : d ≤ daysInMonth y m) :
    daysBeforeMonth y m + d ≤ 365 + leapBit y := by
  have hstep := dbm_step y m h1 h2
  have h13 : daysBeforeMonth y (m + 1) ≤ daysBeforeMonth y 13 :=
    dbm_mono y (by omega) (by omega) (by omega)
  have h13v : daysBeforeMonth y 13 = 365 + leapBit y := by
    by_cases hL : isLeap y <;> simp [daysBeforeMonth, monthTable, leapBit, hL]
  omega

lemma div4_succ (a : Nat) :
    (a + 1) / 4 = a / 4 + (if (a + 1) % 4 = 0 then 1 else 0) := by
  split <;> omega

lemma div100_succ (a : Nat) :
    (a + 1) / 100 = a / 100 + (if (a + 1) % 100 = 0 then 1 else 0) := by
  split <;> omega

lemma div400_succ (a : Nat) :
    (a + 1) / 400 = a / 400 + (if (a + 1) % 400 = 0 then 1 else 0) := by
  split <;> omega

lemma mod4_of_mod100 {n : Nat} (h : n % 100 = 0) : n % 4 = 0 := by
  have := Nat.mod_mod_of_dvd n (by norm_num : (4 : Nat) ∣ 100)
  omega

lemma mod100_of_mod400 {n : Nat} (h : n % 400 = 0) : n % 100 = 0 := by
  have := Nat.mod_mod_of_dvd n (by norm_num : (100 : Nat) ∣ 400)
  omega

lemma dby_succ (y : Nat) (h : 1 ≤ y) :
    daysBeforeYear (y + 1) = daysBeforeYear y + 365 + leapBit y := by
  obtain ⟨a, rfl⟩ : ∃ a, y = a + 1 := ⟨y - 1, by omega⟩
  have h4 := div4_succ a
  have h100 := div100_succ a
  have h400 := div400_succ a
  have hL : leapBit (a + 1) =
      if (a + 1) % 4 = 0 ∧ ((a + 1) % 100 ≠ 0 ∨ (a + 1) % 400 = 0)
      then 1 else 0 := by
    simp only [leapBit, isLeap, Bool.and_eq_true, Bool.or_eq_true,
      beq_iff_eq, bne_iff_ne, decide_eq_true_eq]
  rw [hL] at *
  simp only [daysBeforeYear, Nat.add_sub_cancel]
  by_cases c4 : (a + 1) % 4 = 0 <;> by_cases c100 : (a + 1) % 100 = 0 <;>
    by_cases c400 : (a + 1) % 400 = 0
  all_goals
    first
    | (exact absurd (mod4_of_mod100 c100) c4)
    | (exact absurd (mod100_of_mod400 c400) c100)
    | (simp only [c4, c100, c400, if_pos, if_neg, and_true, and_false,
        ne_eq, not_true_eq_false, not_false_eq_true, true_or, or_true,
        false_or, or_false, true_and, false_and, if_true, if_false] at h4 h100 h400 ⊢;
       omega)

lemma dby_mono {y1 y2 : Nat} (h1 : 1 ≤ y1) (h : y1 ≤ y2) :
    daysBeforeYear y1 ≤ daysBeforeYear y2 := by
  induction y2 with
  | zero => omega
  | succ n ih =>
    rcases Nat.lt_or_ge y1 (n + 1) with hlt | hge
    · have hn : y1 ≤ n := by omega
      have hs := dby_succ n (by omega)
      have := ih hn
      omega
    · have : y1 = n + 1 := by omega
      rw [this]

/-- Unpacked form of `validB`. -/
lemma validB_iff (dt : Date) :
    validB dt = true ↔
      1 ≤ dt.y ∧ dt.y ≤ 9999 ∧ 1 ≤ dt.m ∧ dt.m ≤ 12 ∧ 1 ≤ dt.d ∧
        dt.d ≤ daysInMonth dt.y dt.m := by
  simp [validB, and_assoc]

lemma toOrdinal_lt_of_dlt {a b : Date} (ha : validB a = true)
    (hb : validB b = true) (h : dlt a b = true) :
    toOrdinal a < toOrdinal b := by
  rw [validB_iff] at ha hb
  obtain ⟨hay1, hay2, ham1, ham2, had1, had2⟩ := ha
  obtain ⟨hby1, hby2, hbm1, hbm2, hbd1, hbd2⟩ := hb
  simp only [dlt, Bool.or_eq_true, Bool.and_eq_true, decide_eq_true_eq] at h
  unfold toOrdinal
  rcases h with hy | ⟨hy, hm | ⟨hm, hd⟩⟩
  · -- a.y < b.y
    have hb1 : daysBeforeMonth a.y a.m + a.d ≤ 365 + leapBit a.y :=
      d_le_bound a.y a.m a.d ham1 ham2 had2
    have hb2 : daysBeforeYear (a.y + 1) = daysBeforeYear a.y + 365 + leapBit a.y :=
      dby_succ a.y hay1
    have hb3 : daysBeforeYear (a.y + 1) ≤ daysBeforeYear b.y :=
      dby_mono (by omega) (by omega)
    omega
  · -- same year, a.m < b.m
    rw [hy]
    have hb1 : daysBeforeMonth b.y a.m + daysInMonth b.y a.m =
        daysBeforeMonth b.y (a.m + 1) := by
      apply dbm_step b.y a.m ham1 ham2
    have hb2 : daysBeforeMonth b.y (a.m + 1) ≤ daysBeforeMonth b.y b.m :=
      dbm_mono b.y (by omega) (by omega) (by omega)
    have had2' : a.d ≤ daysInMonth b.y a.m := by rw [← hy]; exact had2
    omega
  · -- same year and month, a.d < b.d
    rw [hy, hm]
    omega

lemma toOrdinal_le_of_dle {a b : Date} (ha : validB a = true)
    (hb : validB b = true) (h : dle a b = true) :
    toOrdinal a ≤ toOrdinal b := by
  simp only [dle, Bool.or_eq_true, decide_eq_true_eq] at h
  rcases h with h | rfl
  · exact Nat.le_of_lt (toOrdinal_lt_of_dlt ha hb h)
  · exact Nat.le_refl _

lemma dle_of_dlt_false {a b : Date} (h : dlt a b = false) : dle b a = true := by
  obtain ⟨ay, am, ad⟩ := a
  obtain ⟨by', bm, bd⟩ := b
  simp only [dlt, dle, Bool.or_eq_false_iff, Bool.and_eq_false_iff,
    Bool.or_eq_true, Bool.and_eq_true, decide_eq_false_iff_not,
    decide_eq_true_eq, Date.mk.injEq, not_lt] at h ⊢
  omega

lemma pget_pset_self {α : Type} (l : List (String × α)) (k : String) (v : α) :
    pget (pset l k v) k = some v := by
  induction l with
  | nil => simp [pset, pget]
  | cons kv rest ih =>
    by_cases h : kv.1 = k
    · simp [pset, pget, h]
    · simp [pset, pget, h, ih]

lemma pget_ppop_self {α : Type} (l : List (String × α)) (k : String) :
    pget (ppop l k) k = none := by
  induction l with
  | nil => rfl
  | cons kv rest ih =>
    by_cases h : kv.1 = k
    · simpa [ppop, h] using ih
    · simpa [ppop, pget, h] using ih

/-! ### Helper lemmas about digits, stripping and `int()` -/

lemma not_space_of_digit {c : Char} (h : pyIsDigit c = true) :
    pyIsSpace c = false := by
  simp only [pyIsDigit, Bool.and_eq_true, decide_eq_true_eq] at h
  simp only [pyIsSpace, Bool.or_eq_false_iff, decide_eq_false_iff_not]
  omega

lemma digit_ne_plus {c : Char} (h : pyIsDigit c = true) : ¬(c = '+') := by
  rintro rfl
  exact absurd h (by decide)

lemma digit_ne_minus {c : Char} (h : pyIsDigit c = true) : ¬(c = '-') := by
  rintro rfl
  exact absurd h (by decide)

lemma dropWhile_eq_self_of_digits {l : List Char}
    (h : l.all pyIsDigit = true) : l.dropWhile pyIsSpace = l := by
  cases l with
  | nil => rfl
  | cons c t =>
    have hc : pyIsDigit c = true := by
      simp only [List.all_cons, Bool.and_eq_true] at h
      exact h.1
    simp [List.dropWhile_cons, not_space_of_digit hc]

lemma stripWs_of_digits {l : List Char} (h : l.all pyIsDigit = true) :
    stripWs l = l := by
  have h2 : l.reverse.all pyIsDigit = true := by
    simpa using h
  unfold stripWs
  rw [dropWhile_eq_self_of_digits h, dropWhile_eq_self_of_digits h2,
    List.reverse_reverse]

lemma pyInt_of_isdigit {s : String} (h : isdigit s = true) :
    ∃ n : Nat, pyInt s = some (n : Int) := by
  simp only [isdigit, Bool.and_eq_true, Bool.not_eq_true'] at h
  obtain ⟨hne, hall⟩ := h
  unfold pyInt
  rw [stripWs_of_digits hall]
  rcases hd : s.data with _ | ⟨c, t⟩
  · rw [hd] at hne
    simp at hne
  · rw [hd] at hall
    have hc : pyIsDigit c = true := by
      simp only [List.all_cons, Bool.and_eq_true] at hall
      exact hall.1
    show ∃ n : Nat, pyIntCore c t = some (n : Int)
    unfold pyIntCore
    rw [if_neg (digit_ne_plus hc), if_neg (digit_ne_minus hc)]
    have hp : parseDigits (c :: t) =
        some ((c :: t).foldl (fun n ch => n * 10 + (ch.toNat - 48)) 0) := by
      unfold parseDigits
      rw [if_pos ⟨by simp, hall⟩]
    rw [hp]
    exact ⟨_, rfl⟩

/-! ### Parser step lemmas -/

lemma parseStep_chapter {line t0 key : String} {rest : List String}
    (h1 : pyStartsWith (pyLower (pyStrip line)) "chapter " = true)
    (h2 : pySplitWs (pyStrip line) = t0 :: key :: rest)
    (d : List (String × List String)) (c : Option String) :
    parseStep (d, c) line = (pset d key [], some key) := by
  simp only [parseStep, h1, if_true, h2]

lemma parseStep_problem {line : String} {c : String}
    (h1 : pyStartsWith (pyLower (pyStrip line)) "chapter " = false)
    (hc : c ≠ "") (hl : pyStrip line ≠ "")
    (d : List (String × List String)) :
    parseStep (d, some c) line =
      (pset d c
        ((pget d c).getD [] ++ (pySplitOn (pyStrip line) ',').map pyStrip),
        some c) := by
  simp only [parseStep, h1, Bool.false_eq_true, if_false, ne_eq, hc,
    not_false_eq_true, hl, and_self, if_true]

lemma parseStep_blank {line : String} {c : String}
    (hl : pyStrip line = "") (d : List (String × List String)) :
    parseStep (d, some c) line = (d, some c) := by
  have h0 : pyStartsWith (pyLower "") "chapter " = false := by decide
  simp only [parseStep, hl, h0, Bool.false_eq_true, if_false, ne_eq,
    not_true_eq_false, and_false, if_false]

lemma parseStep_no_chapter {line : String}
    (h1 : pyStartsWith (pyLower (pyStrip line)) "chapter " = false)
    (d : List (String × List String)) :
    parseStep (d, none) line = (d, none) := by
  simp only [parseStep, h1, Bool.false_eq_true, if_false]

lemma fold_no_chapter (lines : List String)
    (h : ∀ l ∈ lines, pyStartsWith (pyLower (pyStrip l)) "chapter " = false) :
    lines.foldl parseStep
        (([] : List (String × List String)), (none : Option String)) =
      ([], none) := by
  induction lines with
  | nil => rfl
  | cons l ls ih =>
    rw [List.foldl_cons,
      parseStep_no_chapter (h l (List.mem_cons_self l ls)) []]
    exact ih fun x hx => h x (List.mem_cons_of_mem l hx)

/-! ### Claim theorems -/

/-- Claim C5: for every record and problem identifier,
`setProblemComplete` with `complete = false` removes that problem's
completion entry entirely (including any attached document pointer),
and a subsequent `setProblemComplete` with `complete = true` creates a
fresh entry whose document field is null — in the QFT variant the fresh
entry is literally `{"complete": True, "document": None}`; in the base
variant it is `{"complete": True}` with no `"document"` key, which
reads as `None` (`entryDoc` is `none` in both). -/
theorem C5_mark_incomplete_removes_entry (cp cp2 : CompletedMap)
    (prob : String) :
    pget (mark_problem_qft cp prob false) prob = none ∧
    pget (mark_problem_base cp2 prob false) prob = none ∧
    pget (mark_problem_qft (mark_problem_qft cp prob false) prob true) prob =
      some [("complete", Val.bool true), ("document", Val.null)] ∧
    pget (mark_problem_base (mark_problem_base cp2 prob false) prob true) prob =
      some [("complete", Val.bool true)] ∧
    entryDoc ((pget (mark_problem_qft (mark_problem_qft cp prob false) prob true)
        prob).getD []) = none ∧
    entryDoc ((pget (mark_problem_base (mark_problem_base cp2 prob false) prob true)
        prob).getD []) = none := by
  have h1 : pget (mark_problem_qft cp prob false) prob = none := by
    simp only [mark_problem_qft, Bool.false_eq_true, if_false]
    exact pget_ppop_self cp prob
  have h2 : pget (mark_problem_base cp2 prob false) prob = none := by
    simp only [mark_problem_base, Bool.false_eq_true, if_false]
    exact pget_ppop_self cp2 prob
  have hinner : mark_problem_qft cp prob false = ppop cp prob := by
    simp only [mark_problem_qft, Bool.false_eq_true, if_false]
  have houter : mark_problem_qft (ppop cp prob) prob true =
      pset (ppop cp prob) prob
        [("complete", Val.bool true), ("document", Val.null)] := by
    simp only [mark_problem_qft, if_true]
    rw [pget_ppop_self cp prob]
    rfl
  have h3 : pget (mark_problem_qft (mark_problem_qft cp prob false) prob true)
      prob = some [("complete", Val.bool true), ("document", Val.null)] := by
    rw [hinner, houter]
    exact pget_pset_self _ _ _
  have h4 : pget (mark_problem_base (mark_problem_base cp2 prob false) prob true)
      prob = some [("complete", Val.bool true)] := by
    simp only [mark_problem_base, if_true]
    exact pget_pset_self _ _ _
  refine ⟨h1, h2, h3, h4, ?_, ?_⟩
  · rw [h3]
    rfl
  · rw [h4]
    rfl

/-- Claim C9: attaching a document succeeds only when the problem
already has a completion entry that is truthy on `"complete"`; in every
other state `upload_document` fails (shows the "Not Complete" message)
and returns the completion map unchanged. -/
theorem C9_upload_requires_complete (cp : CompletedMap) (prob : String)
    (fp : Option String) (ok : Bool) :
    ((pget cp prob = none ∨
        truthy (pget ((pget cp prob).getD []) "complete") = false) →
      upload_document cp prob fp ok = (cp, false)) ∧
    ((upload_document cp prob fp ok).2 = true →
      ∃ e, pget cp prob = some e ∧ truthy (pget e "complete") = true) := by
  constructor
  · intro h
    rcases hg : pget cp prob with _ | e
    · simp only [upload_document, hg]
    · rcases h with h | h
      · rw [hg] at h
        cases h
      · rw [hg] at h
        simp only [Option.getD_some] at h
        simp only [upload_document, hg, h, if_true]
  · intro h2
    rcases hg : pget cp prob with _ | e
    · simp only [upload_document, hg] at h2
      cases h2
    · by_cases ht : truthy (pget e "complete") = false
      · simp only [upload_document, hg, ht, if_true] at h2
        cases h2
      · exact ⟨e, rfl, by simpa using ht⟩

/-- Witness for C9 at a concrete input: uploading for a problem with no
completion entry leaves the empty map unchanged and attaches nothing. -/
theorem C9_witness :
    upload_document [] "3.2" (some "sol.pdf") true = ([], false) :=
  (C9_upload_requires_complete [] "3.2" (some "sol.pdf") true).1 (Or.inl rfl)

/-- Claim C7 (amended: a chapter line must have the literal space
character after the case-insensitive word `chapter`, not arbitrary
whitespace): the parser strips each line; a line whose stripped,
lowercased form starts with the eight characters `"chapter "` starts a
new chapter keyed by the line's second whitespace-separated token
(resetting that key's problems to `[]`); every other nonempty line,
when a chapter is open, appends its comma-separated stripped pieces in
order to the current chapter; blank lines do nothing; nonempty lines
seen before any chapter line are silently ignored; and the scenario
input parses as specified. -/
theorem C7_parser_grammar :
    parse_problems "Chapter 1\n1.1, 1.2a\nChapter 2\n2.1" =
      [("1", ["1.1", "1.2a"]), ("2", ["2.1"])] ∧
    (∀ lines : List String,
      (∀ l ∈ lines, pyStartsWith (pyLower (pyStrip l)) "chapter " = false) →
      lines.foldl parseStep
          (([] : List (String × List String)), (none : Option String)) =
        ([], none)) ∧
    (∀ (d : List (String × List String)) (c : Option String)
        (line t0 key : String) (rest : List String),
      pyStartsWith (pyLower (pyStrip line)) "chapter " = true →
      pySplitWs (pyStrip line) = t0 :: key :: rest →
      parseStep (d, c) line = (pset d key [], some key)) ∧
    (∀ (d : List (String × List String)) (c line : String),
      pyStartsWith (pyLower (pyStrip line)) "chapter " = false →
      c ≠ "" → pyStrip line ≠ "" →
      parseStep (d, some c) line =
        (pset d c
          ((pget d c).getD [] ++ (pySplitOn (pyStrip line) ',').map pyStrip),
          some c)) ∧
    (∀ (d : List (String × List String)) (c line : String),
      pyStartsWith (pyLower (pyStrip line)) "chapter " = false →
      pyStrip line = "" →
      parseStep (d, some c) line = (d, some c)) ∧
    (∀ (d : List (String × List String)) (line : String),
      pyStartsWith (pyLower (pyStrip line)) "chapter " = false →
      parseStep (d, none) line = (d, none)) := by
  refine ⟨by decide, fold_no_chapter, ?_, ?_, ?_, ?_⟩
  · intro d c line t0 key rest h1 h2
    exact parseStep_chapter h1 h2 d c
  · intro d c line h1 hc hl
    exact parseStep_problem h1 hc hl d
  · intro d c line h1 hl
    exact parseStep_blank hl d
  · intro d line h1
    exact parseStep_no_chapter h1 d

/-- Witness for C7 at concrete inputs, applying `C7_parser_grammar`
with every hypothesis discharged by evaluation. -/
theorem C7_parser_grammar_witness :
    parse_problems "Chapter 1\n1.1, 1.2a\nChapter 2\n2.1" =
      [("1", ["1.1", "1.2a"]), ("2", ["2.1"])] ∧
    (["1.1, 1.2"].foldl parseStep
        (([] : List (String × List String)), (none : Option String)) =
      ([], none)) ∧
    parseStep (([("1", ["1.1"])] : List (String × List String)), some "1")
        "Chapter 2" = (pset [("1", ["1.1"])] "2" [], some "2") ∧
    parseStep (([("1", [])] : List (String × List String)), some "1")
        " 1.1, 1.2a " =
      (pset [("1", [])] "1"
        ((pget [("1", [])] "1").getD [] ++
          (pySplitOn (pyStrip " 1.1, 1.2a ") ',').map pyStrip),
        some "1") ∧
    parseStep (([("1", ["1.1"])] : List (String × List String)), some "1")
        "   " = ([("1", ["1.1"])], some "1") ∧
    parseStep (([] : List (String × List String)), none) "stray line" =
      ([], none) := by
  obtain ⟨hA, hB, hC, hD, hE, hF⟩ := C7_parser_grammar
  exact ⟨hA,
    hB ["1.1, 1.2"] (by decide),
    hC [("1", ["1.1"])] (some "1") "Chapter 2" "Chapter" "2" [] (by decide)
      (by decide),
    hD [("1", [])] "1" " 1.1, 1.2a " (by decide) (by decide) (by decide),
    hE [("1", ["1.1"])] "1" "   " (by decide) (by decide),
    hF [] "stray line" (by decide)⟩

/-- Counterexample to claim C7 as stated: the grammar in the claim says
a line beginning with the token `chapter` followed by WHITESPACE starts
a new chapter, but the code tests `startswith("chapter ")` with a
literal space, so `"chapter\t1"` (tab after the word) is NOT a chapter
line: alone it parses to `{}` rather than the claimed `{"1": []}`, and
after a chapter line its whole text is appended as a problem. -/
theorem C7_tab_line_not_chapter :
    parse_problems "chapter\t1" = [] ∧
    parse_problems "chapter\t1" ≠ [("1", [])] ∧
    parse_problems "Chapter 1\nchapter\t2" = [("1", ["chapter\t2"])] := by
  refine ⟨by decide, ?_, by decide⟩
  intro h
  rw [show parse_problems "chapter\t1" = [] from by decide] at h
  cases h

/-- Claim C10: a second `chapter` line with an already-seen key resets
that chapter's problem list to empty, discarding everything accumulated
under the first occurrence — stepping any parser state over a chapter
line keyed `key` leaves `key` bound to `[]`, and concretely
`"Chapter 1\n1.1, 1.3\nChapter 1\n1.2"` parses to `{"1": ["1.2"]}`. -/
theorem C10_duplicate_chapter_resets :
    (∀ (d : List (String × List String)) (c : Option String)
        (line t0 key : String) (rest : List String),
      pyStartsWith (pyLower (pyStrip line)) "chapter " = true →
      pySplitWs (pyStrip line) = t0 :: key :: rest →
      pget (parseStep (d, c) line).1 key = some []) ∧
    parse_problems "Chapter 1\n1.1, 1.3\nChapter 1\n1.2" = [("1", ["1.2"])] := by
  constructor
  · intro d c line t0 key rest h1 h2
    rw [parseStep_chapter h1 h2 d c]
    exact pget_pset_self d key []
  · decide

/-- Witness for C10: the reset rule applied at a concrete duplicate
chapter line, hypotheses discharged by evaluation. -/
theorem C10_duplicate_chapter_resets_witness :
    pget (parseStep (([("1", ["1.1", "1.3"])] : List (String × List String)),
        some "1") "Chapter 1").1 "1" = some [] ∧
    parse_problems "Chapter 1\n1.1, 1.3\nChapter 1\n1.2" = [("1", ["1.2"])] := by
  obtain ⟨hA, hB⟩ := C10_duplicate_chapter_resets
  exact ⟨hA [("1", ["1.1", "1.3"])] (some "1") "Chapter 1" "Chapter" "1" []
    (by decide) (by decide), hB⟩

/-- Claim C6: `setCurrentPage` rejects any entry text that does not
denote an integer in `[0, totalPages]`, and on every rejected call the
current page is exactly what it was before — in both variants (the base
variant additionally pre-filters through `str.isdigit`, which only
rejects more). -/
theorem C6_update_page_rejects_out_of_range (entry : String)
    (cur total : Int) :
    ((¬ ∃ n : Int, pyInt entry = some n ∧ 0 ≤ n ∧ n ≤ total) →
      update_page entry cur total = cur) ∧
    ((¬ ∃ n : Int, pyInt entry = some n ∧ 0 ≤ n ∧ n ≤ TOTAL_PAGES) →
      update_page_qft entry cur = cur) := by
  constructor
  · intro h
    unfold update_page
    by_cases hd : isdigit entry = true
    · rw [if_pos hd]
      obtain ⟨n, hn⟩ := pyInt_of_isdigit hd
      rw [hn]
      show (if 0 ≤ (n : Int) ∧ (n : Int) ≤ total then (n : Int) else cur) = cur
      rw [if_neg]
      rintro ⟨h0, hle⟩
      exact h ⟨(n : Int), hn, h0, hle⟩
    · rw [if_neg hd]
  · intro h
    unfold update_page_qft
    rcases hq : pyInt entry with _ | n
    · rfl
    · show (if 0 ≤ n ∧ n ≤ TOTAL_PAGES then n else cur) = cur
      rw [if_neg]
      rintro ⟨h0, hle⟩
      exact h ⟨n, hq, h0, hle⟩

/-- Witness for C6: the out-of-range entry `"999"` is rejected by both
variants and leaves the current page unchanged. -/
theorem C6_update_page_rejects_witness :
    update_page "999" 5 10 = 5 ∧ update_page_qft "999" 5 = 5 := by
  have h := C6_update_page_rejects_out_of_range "999" 5 10
  have hv : pyInt "999" = some 999 := by decide
  refine ⟨h.1 ?_, h.2 ?_⟩ <;>
  · rintro ⟨n, hn, h0, hle⟩
    rw [hv] at hn
    obtain rfl : (999 : Int) = n := by simpa using hn
    revert hle
    decide

/-- Claim C8: the metrics computation never divides by zero: in the
base variant `total_days == 0` gives semester percent 0 and
`total_pages == 0` gives page percent 0 (both guarded, so the division
is always defined); in the QFT variant the divisors are the fixed
nonzero constants `TOTAL_SEMESTER_DAYS = 116` and `TOTAL_PAGES = 258`,
so the unguarded divisions are always defined as well. -/
theorem C8_no_division_by_zero (e t c p : Int) :
    (semester_progress_value e t).isSome = true ∧
    (t = 0 → semester_progress_value e t = some 0) ∧
    (textbook_progress_value c p).isSome = true ∧
    (p = 0 → textbook_progress_value c p = some 0) ∧
    (semester_percentage_qft e).isSome = true ∧
    (textbook_percentage_qft c).isSome = true := by
  have hT : TOTAL_SEMESTER_DAYS = 116 := by decide
  refine ⟨?_, ?_, ?_, ?_, ?_, ?_⟩
  · by_cases h : t = 0
    · simp [semester_progress_value, h]
    · have hq : ((t : Rat)) ≠ 0 := Int.cast_ne_zero.mpr h
      simp [semester_progress_value, pyDiv, h, hq]
  · intro h
    simp [semester_progress_value, h]
  · by_cases h : p = 0
    · simp [textbook_progress_value, h]
    · have hq : ((p : Rat)) ≠ 0 := Int.cast_ne_zero.mpr h
      simp [textbook_progress_value, pyDiv, h, hq]
  · intro h
    simp [textbook_progress_value, h]
  · rw [semester_percentage_qft, hT]
    simp [pyDiv]
  · rw [textbook_percentage_qft]
    simp [pyDiv, TOTAL_PAGES]

/-- Witness for C8 at the degenerate inputs `total_days = 0` and
`total_pages = 0`. -/
theorem C8_no_division_by_zero_witness :
    (semester_progress_value 5 0).isSome = true ∧
    semester_progress_value 5 0 = some 0 ∧
    (textbook_progress_value 7 0).isSome = true ∧
    textbook_progress_value 7 0 = some 0 ∧
    (semester_percentage_qft 5).isSome = true ∧
    (textbook_percentage_qft 7).isSome = true := by
  have h := C8_no_division_by_zero 5 0 7 0
  exact ⟨h.1, h.2.1 rfl, h.2.2.1, h.2.2.2.1 rfl, h.2.2.2.2.1, h.2.2.2.2.2⟩

/-- Claim C1 (code bug): saving and re-loading a record set does NOT
restore the nested `completed_problems` map.  `Textbook.to_dict` writes
it and `mark_problem` saves for persistence, but `Textbook.from_dict`
never reads the stored `completed_problems` key, so the reconstructed
record always has an empty completion map.  At the concrete record
`exC1Book` (whose map is nonempty) the round trip returns a record set
that differs from the original. -/
theorem C1_roundtrip_drops_completed_problems :
    load_textbooks (some (some (save_textbooks [exC1Book]))) =
      Except.ok [{ exC1Book with completed_problems := [] }] ∧
    ({ exC1Book with completed_problems := [] } : Textbook) ≠ exC1Book ∧
    exC1Book.completed_problems ≠ [] := by
  refine ⟨?_, by decide, by decide⟩
  rfl

/-- Counterexample to claim C3 as stated: in the base variant,
`load_textbooks` has no exception handler, so a persisted file that
exists but is not valid JSON raises `json.JSONDecodeError`, which
propagates out of `load_textbooks` (aborting startup) rather than
yielding the empty record set. -/
theorem C3_load_textbooks_propagates_decode_error :
    load_textbooks (some none) =
      Except.error "json.decoder.JSONDecodeError" ∧
    load_textbooks (some none) ≠ Except.ok [] := by
  refine ⟨rfl, ?_⟩
  intro h
  cases h

/-- Claim C3 (amended): graceful degradation holds for the QFT
variant's `load_completed_problems` — a missing file, undecodable JSON,
and data that is neither a list nor a dict all yield the empty map, and
a stored dict is returned as-is — while the base variant's
`load_textbooks` returns the empty record set only when the file does
not exist (an unreadable or wrongly-shaped file makes it raise, see the
counterexample). -/
theorem C3_graceful_degradation_amended :
    load_textbooks none = Except.ok [] ∧
    load_completed_problems none = Json.obj [] ∧
    load_completed_problems (some none) = Json.obj [] ∧
    (∀ j : Json, isArrOrObj j = false →
      load_completed_problems (some (some j)) = Json.obj []) ∧
    (∀ kvs : List (String × Json),
      load_completed_problems (some (some (Json.obj kvs))) = Json.obj kvs) := by
  refine ⟨rfl, rfl, rfl, ?_, fun kvs => rfl⟩
  intro j hj
  cases j <;> first
    | rfl
    | (exact absurd hj (by simp [isArrOrObj]))

/-- Witness for C3 (amended) at concrete inputs: a stored JSON number
(neither list nor dict) yields the empty map. -/
theorem C3_graceful_degradation_witness :
    load_completed_problems (some (some (Json.int 3))) = Json.obj [] ∧
    load_textbooks none = Except.ok [] :=
  ⟨C3_graceful_degradation_amended.2.2.2.1 (Json.int 3) rfl,
    C3_graceful_degradation_amended.1⟩

/-- Counterexample to claim C2 as stated: `parse_and_add` performs no
`totalPages <= 0` validation.  The call with valid, ordered dates and
pages text `"0"` succeeds, appends a record, and that record's
`total_pages` is 0 — the claim says this call must fail with a
`ValidationError`. -/
theorem C2_total_pages_zero_accepted :
    (parse_and_add "B" "A" "2025-01-01" "2025-02-01" "0" "" []).2 = none ∧
    (parse_and_add "B" "A" "2025-01-01" "2025-02-01" "0" "" []).1.length = 1 ∧
    (parse_and_add "B" "A" "2025-01-01" "2025-02-01" "0" "" []).1.map
        Textbook.total_pages = [0] :=
  ⟨rfl, rfl, rfl⟩

/-- Claim C2 (amended): `addTextbook` fails — and appends no record —
exactly when the start or end date string is malformed, when
`startDate > endDate`, or when the pages text is not an integer
literal; `totalPages <= 0` is NOT validated (see the counterexample)
and the chapter-text parser is total, so chapter text never causes a
failure.  The scenario `startDate=2025-06-01`, `endDate=2025-01-01`
fails and leaves the record list unchanged. -/
theorem C2_add_textbook_validation (n a ss es ps pt : String)
    (tbs : List Textbook) :
    ((parse_and_add n a ss es ps pt tbs).2.isSome = true ↔
      fromIso ss = none ∨ fromIso es = none ∨
        (∃ sd ed, fromIso ss = some sd ∧ fromIso es = some ed ∧
          dlt ed sd = true) ∨
        pyInt ps = none) ∧
    ((parse_and_add n a ss es ps pt tbs).2.isSome = true →
      (parse_and_add n a ss es ps pt tbs).1 = tbs) ∧
    ((parse_and_add n a ss es ps pt tbs).2 = none →
      (parse_and_add n a ss es ps pt tbs).1 =
        tbs ++
          [{ name := n, author := a, total_pages := (pyInt ps).getD 0,
             current_page := 0, problems_dict := parse_problems pt,
             start_date := (fromIso ss).getD ⟨1, 1, 1⟩,
             end_date := (fromIso es).getD ⟨1, 1, 1⟩,
             completed_problems := [] }]) ∧
    ((parse_and_add n a "2025-06-01" "2025-01-01" ps pt tbs).2.isSome = true ∧
      (parse_and_add n a "2025-06-01" "2025-01-01" ps pt tbs).1 = tbs) := by
  rcases hss : fromIso ss with _ | sd
  · refine ⟨?_, ?_, ?_, rfl, rfl⟩
    · simp [parse_and_add, hss]
    · intro _
      simp [parse_and_add, hss]
    · intro hnone
      simp only [parse_and_add, hss] at hnone
      cases hnone
  · rcases hes : fromIso es with _ | ed
    · refine ⟨?_, ?_, ?_, rfl, rfl⟩
      · simp [parse_and_add, hss, hes]
      · intro _
        simp [parse_and_add, hss, hes]
      · intro hnone
        simp only [parse_and_add, hss, hes] at hnone
        cases hnone
    · by_cases hlt : dlt ed sd = true
      · refine ⟨?_, ?_, ?_, rfl, rfl⟩
        · simp only [parse_and_add, hss, hes, hlt, if_true,
            Option.isSome_some, true_iff]
          exact Or.inr (Or.inr (Or.inl ⟨sd, ed, rfl, rfl, hlt⟩))
        · intro _
          simp [parse_and_add, hss, hes, hlt]
        · intro hnone
          simp only [parse_and_add, hss, hes, hlt, if_true] at hnone
          cases hnone
      · rcases hps : pyInt ps with _ | tp
        · refine ⟨?_, ?_, ?_, rfl, rfl⟩
          · simp [parse_and_add, hss, hes, hlt, hps]
          · intro _
            simp [parse_and_add, hss, hes, hlt, hps]
          · intro hnone
            simp only [parse_and_add, hss, hes, hlt, if_false, hps] at hnone
            cases hnone
        · refine ⟨?_, ?_, ?_, rfl, rfl⟩
          · simp only [parse_and_add, hss, hes, hlt, if_false, hps,
              Option.isSome_none, Bool.false_eq_true, false_iff]
            push_neg
            refine ⟨by simp, by simp, ?_, by simp⟩
            rintro sd' ed' hsd' hed'
            obtain rfl : sd = sd' := by simpa using hsd'
            obtain rfl : ed = ed' := by simpa using hed'
            simpa using hlt
          · intro habs
            simp [parse_and_add, hss, hes, hlt, hps] at habs
          · intro _
            simp [parse_and_add, hss, hes, hlt, hps]

/-- Witness for C2 (amended) at the scenario input: the reversed-dates
call errors and appends nothing. -/
theorem C2_add_textbook_validation_witness :
    (parse_and_add "B" "A" "2025-06-01" "2025-01-01" "100" ""
      []).2.isSome = true ∧
    (parse_and_add "B" "A" "2025-06-01" "2025-01-01" "100" "" []).1 = [] := by
  have h := C2_add_textbook_validation "B" "A" "2025-06-01" "2025-01-01"
    "100" "" []
  exact ⟨rfl, h.2.1 rfl⟩

/-- Counterexample to claim C4 as stated: in the base variant's
`update_display`, `days_elapsed` is only clamped below (`max(0, ...)`),
never above: with `start = 2025-01-13`, `end = 2025-05-09` (so
`start <= end` and `totalDays = 116`) and `today = 2025-12-31`,
`days_elapsed = 352 > totalDays`. -/
theorem C4_days_elapsed_exceeds_total :
    dle ⟨2025, 1, 13⟩ ⟨2025, 5, 9⟩ = true ∧
    totalDaysBase ⟨2025, 1, 13⟩ ⟨2025, 5, 9⟩ = 116 ∧
    daysElapsedBase ⟨2025, 1, 13⟩ ⟨2025, 12, 31⟩ = 352 ∧
    ¬(daysElapsedBase ⟨2025, 1, 13⟩ ⟨2025, 12, 31⟩ ≤
        totalDaysBase ⟨2025, 1, 13⟩ ⟨2025, 5, 9⟩) := by
  refine ⟨by decide, by decide, by decide, by decide⟩

/-- Claim C4 (amended): in the base variant both day counts are always
nonnegative, and whenever `startDate <= today <= endDate` (valid dates)
they lie in `[0, totalDays]` and sum to `totalDays`; outside that
window `daysElapsed` (resp. `daysLeft`) can exceed `totalDays` (see the
counterexample).  In the QFT variant the counts are fully clamped: for
every valid `today` both lie in `[0, TOTAL_SEMESTER_DAYS]` and always
sum to `TOTAL_SEMESTER_DAYS`. -/
theorem C4_day_counts_amended :
    (∀ s e t : Date, 0 ≤ daysElapsedBase s t ∧ 0 ≤ daysLeftBase e t) ∧
    (∀ s e t : Date, validB s = true → validB e = true → validB t = true →
      dle s t = true → dle t e = true →
      daysElapsedBase s t + daysLeftBase e t = totalDaysBase s e ∧
      daysElapsedBase s t ≤ totalDaysBase s e ∧
      daysLeftBase e t ≤ totalDaysBase s e) ∧
    (∀ t : Date, validB t = true →
      0 ≤ (qft_days t).1 ∧ (qft_days t).1 ≤ TOTAL_SEMESTER_DAYS ∧
      0 ≤ (qft_days t).2 ∧ (qft_days t).2 ≤ TOTAL_SEMESTER_DAYS ∧
      (qft_days t).1 + (qft_days t).2 = TOTAL_SEMESTER_DAYS) := by
  refine ⟨?_, ?_, ?_⟩
  · intro s e t
    constructor
    · unfold daysElapsedBase
      split
      · exact le_max_left 0 _
      · exact le_refl 0
    · unfold daysLeftBase
      split
      · exact le_max_left 0 _
      · exact le_refl 0
  · intro s e t hs he ht hst hte
    have o1 : toOrdinal s ≤ toOrdinal t := toOrdinal_le_of_dle hs ht hst
    have o2 : toOrdinal t ≤ toOrdinal e := toOrdinal_le_of_dle ht he hte
    unfold daysElapsedBase daysLeftBase totalDaysBase dateSub
    rw [if_pos hst, if_pos hte]
    rw [max_eq_right (by omega), max_eq_right (by omega)]
    omega
  · intro t ht
    have hSv : validB SEMESTER_START = true := by decide
    have hEv : validB SEMESTER_END = true := by decide
    have hT : TOTAL_SEMESTER_DAYS = 116 := by decide
    unfold qft_days
    by_cases h1 : dlt t SEMESTER_START = true
    · rw [if_pos h1]
      simp only
      omega
    · rw [if_neg h1]
      by_cases h2 : dlt SEMESTER_END t = true
      · rw [if_pos h2]
        simp only
        omega
      · rw [if_neg h2]
        have hS : dle SEMESTER_START t = true :=
          dle_of_dlt_false (Bool.not_eq_true _ ▸ h1)
        have hE : dle t SEMESTER_END = true :=
          dle_of_dlt_false (Bool.not_eq_true _ ▸ h2)
        have o1 : toOrdinal SEMESTER_START ≤ toOrdinal t :=
          toOrdinal_le_of_dle hSv ht hS
        have o2 : toOrdinal t ≤ toOrdinal SEMESTER_END :=
          toOrdinal_le_of_dle ht hEv hE
        have hTo : toOrdinal SEMESTER_END = toOrdinal SEMESTER_START + 116 := by
          decide
        simp only [TOTAL_SEMESTER_DAYS, dateSub]
        omega

/-- Witness for C4 (amended) at the spec's own scenario dates
(`start = 2025-01-13`, `end = 2025-05-09`, `today = 2025-03-01`): the
in-window identities hold in both variants and the base counts are 47
elapsed / 69 left. -/
theorem C4_day_counts_amended_witness :
    (0 ≤ daysElapsedBase ⟨2025, 1, 13⟩ ⟨2025, 3, 1⟩ ∧
      0 ≤ daysLeftBase ⟨2025, 5, 9⟩ ⟨2025, 3, 1⟩) ∧
    (daysElapsedBase ⟨2025, 1, 13⟩ ⟨2025, 3, 1⟩ +
        daysLeftBase ⟨2025, 5, 9⟩ ⟨2025, 3, 1⟩ =
      totalDaysBase ⟨2025, 1, 13⟩ ⟨2025, 5, 9⟩ ∧
      daysElapsedBase ⟨2025, 1, 13⟩ ⟨2025, 3, 1⟩ ≤
        totalDaysBase ⟨2025, 1, 13⟩ ⟨2025, 5, 9⟩ ∧
      daysLeftBase ⟨2025, 5, 9⟩ ⟨2025, 3, 1⟩ ≤
        totalDaysBase ⟨2025, 1, 13⟩ ⟨2025, 5, 9⟩) ∧
    ((qft_days ⟨2025, 3, 1⟩).1 + (qft_days ⟨2025, 3, 1⟩).2 =
      TOTAL_SEMESTER_DAYS) ∧
    daysElapsedBase ⟨2025, 1, 13⟩ ⟨2025, 3, 1⟩ = 47 := by
  obtain ⟨hA, hB, hC⟩ := C4_day_counts_amended
  exact ⟨hA ⟨2025, 1, 13⟩ ⟨2025, 5, 9⟩ ⟨2025, 3, 1⟩,
    hB ⟨2025, 1, 13⟩ ⟨2025, 5, 9⟩ ⟨2025, 3, 1⟩ (by decide) (by decide)
      (by decide) (by decide) (by decide),
    (hC ⟨2025, 3, 1⟩ (by decide)).2.2.2.2, by decide⟩
